import Mathlib

/-!
Shallow embedding of `src/app.py`, a Flask service that scrapes TikTok
comments for a target username.  Network effects are modelled as explicit
oracles: `head` models `requests.head` redirect expansion (`none` = the
request raised, which the code swallows), `api` models the unofficial
comment endpoint (one `ApiResult` per request made, indexed by request
number), and `fmt` models `datetime.fromtimestamp(...).strftime(...)`
(`none` = the conversion raised).  Python strings are Lean `String`s;
`str.lower` is modelled on the ASCII range, matching the usernames the
service handles.
-/

set_option maxRecDepth 4000

/-- Python truth-test whitespace set used by `str.strip()` (ASCII part). -/
def isPySpace (c : Char) : Bool :=
  c = ' ' || c = '\t' || c = '\n' || c = '\r' || c = '\x0b' || c = '\x0c'

/-- `needle` occurs at the very start of `hay`. -/
def beginsWith : List Char → List Char → Bool
  | [], _ => true
  | _ :: _, [] => false
  | a :: as, b :: bs => a = b && beginsWith as bs

/-- Python `needle in hay`: contiguous-substring test. -/
def hasSub (needle : List Char) : List Char → Bool
  | [] => beginsWith needle []
  | c :: cs => beginsWith needle (c :: cs) || hasSub needle cs

/-- Python `s.strip()` on the underlying character list. -/
def stripChars (l : List Char) : List Char :=
  ((l.dropWhile isPySpace).reverse.dropWhile isPySpace).reverse

/-- Python `s.strip()`. -/
def pyStrip (s : String) : String := String.mk (stripChars s.data)

/-- Python `s.lstrip('@')`: drop every leading `@`. -/
def pyLstripAt (s : String) : String := String.mk (s.data.dropWhile (· = '@'))

/-- Python `s.lower()` (ASCII range). -/
def pyLower (s : String) : String := String.mk (s.data.map Char.toLower)

/-- Longest run of decimal digits at the start of the list: the greedy
capture of a leading regex group of one or more digits. -/
def takeDigits : List Char → List Char
  | [] => []
  | c :: cs => if c.isDigit then c :: takeDigits cs else []

/-- Anchored match of the first pattern of `extract_video_id`
(slash, the word video, slash, then one or more captured digits)
at the start of the list; returns the captured digits. -/
def pat1Here : List Char → Option (List Char)
  | '/' :: 'v' :: 'i' :: 'd' :: 'e' :: 'o' :: '/' :: rest =>
    let ds := takeDigits rest
    if ds.isEmpty then none else some ds
  | _ => none

/-- `re.search` for the first pattern: leftmost anchored match wins. -/
def searchPat1 : List Char → Option (List Char)
  | [] => none
  | c :: cs =>
    match pat1Here (c :: cs) with
    | some d => some d
    | none => searchPat1 cs

/-- Tail of the second pattern after the literal `tiktok.com/`: a lazy
any-run (which cannot cross a newline), then a further slash, then one
or more captured digits. -/
def pat2Tail : List Char → Option (List Char)
  | [] => none
  | c :: cs =>
    if c = '/' && !(takeDigits cs).isEmpty then some (takeDigits cs)
    else if c = '\n' then none
    else pat2Tail cs

/-- Anchored match of the second pattern of `extract_video_id`
(the literal platform domain followed by a slash, then a lazy any-run,
a second slash, and the captured digits). -/
def pat2Here : List Char → Option (List Char)
  | 't' :: 'i' :: 'k' :: 't' :: 'o' :: 'k' :: '.' :: 'c' :: 'o' :: 'm' :: '/' :: rest =>
    pat2Tail rest
  | _ => none

/-- `re.search` for the second pattern. -/
def searchPat2 : List Char → Option (List Char)
  | [] => none
  | c :: cs =>
    match pat2Here (c :: cs) with
    | some d => some d
    | none => searchPat2 cs

/-- `extract_video_id(url)` from `src/app.py` lines 18-42.  `head url`
models `requests.head(url, allow_redirects=True).url`; `none` models the
request raising, which the code swallows (`except: pass`). -/
def extract_video_id (head : String → Option String) (url : String) :
    Option String :=
  match searchPat1 url.data with
  | some d => some (String.mk d)
  | none =>
    match searchPat2 url.data with
    | some d => some (String.mk d)
    | none =>
      if hasSub "vm.tiktok.com".data url.data || hasSub "vt.tiktok.com".data url.data then
        match head url with
        | some expanded =>
          match searchPat1 expanded.data with
          | some d => some (String.mk d)
          | none => none
        | none => none
      else none

/-- The author sub-mapping of a raw comment record; `none` fields model
absent dictionary keys (`user.get(key, '')` then yields the empty string). -/
structure RawUser where
  unique_id : Option String
  nickname : Option String
  deriving DecidableEq, Repr

/-- A raw record from the comment endpoint; `none` fields model absent
dictionary keys, for which the code substitutes its `get` defaults. -/
structure RawComment where
  user : Option RawUser
  text : Option String
  digg_count : Option Int
  create_time : Option Int
  deriving DecidableEq, Repr

/-- An output comment as built at `src/app.py` lines 109-113. -/
structure Comment where
  text : String
  likes : Int
  timestamp : Option String
  deriving DecidableEq, Repr

/-- Author identity of a record, `src/app.py` lines 92-93:
`user.get('unique_id', '') or user.get('nickname', '')`. -/
def identityOf (c : RawComment) : String :=
  let u := c.user.getD ⟨none, none⟩
  let uid := u.unique_id.getD ""
  if uid ≠ "" then uid else u.nickname.getD ""

/-- Per-record filter and normalizer, `src/app.py` lines 90-113: keep the
record only when its identity case-insensitively equals the target, and
build the output comment.  `fmt t` models
`datetime.fromtimestamp(int(t)).strftime('%Y-%m-%d %H:%M:%S')`, with
`none` modelling the conversion raising (the code then falls back to
`str(create_time)`). -/
def processRecord (fmt : Int → Option String) (target : String)
    (c : RawComment) : Option Comment :=
  if pyLower (identityOf c) = pyLower target then
    let text := c.text.getD ""
    let likes := c.digg_count.getD 0
    let create_time := c.create_time.getD 0
    let timestamp : Option String :=
      if create_time ≠ 0 then
        match fmt create_time with
        | some s => some s
        | none => some (toString create_time)
      else none
    some ⟨text, likes, timestamp⟩
  else none

/-- Outcome of one request to the unofficial comment endpoint.
`err` models `requests.get` (or `response.json()`) raising; `page`
carries the HTTP status and, for a 200, the parsed fields
`comments` (default `[]`), `has_more` (default `0`, truthy iff nonzero)
and `cursor` (default `0`). -/
inductive ApiResult where
  | err : ApiResult
  | page (status : Nat) (comments : List RawComment) (has_more : Int)
      (cursor : Int) : ApiResult
  deriving DecidableEq, Repr

/-- The pagination loop of `src/app.py` lines 67-127, starting at request
number `i` with `fuel` iterations left.  Returns the comments collected
from request `i` on, paired with the number of requests actually made.
`api` maps the request number to that request's outcome (the cursor sent
with each request is part of the abstracted transport). -/
def scrapeFrom (fmt : Int → Option String) (target : String)
    (api : Nat → ApiResult) : Nat → Nat → List Comment × Nat
  | _, 0 => ([], 0)
  | i, fuel + 1 =>
    match api i with
    | ApiResult.err => ([], 1)
    | ApiResult.page st cs hm _cur =>
      if st ≠ 200 then ([], 1)
      else if cs = [] then ([], 1)
      else
        let found := cs.filterMap (processRecord fmt target)
        if hm = 0 then (found, 1)
        else
          let r := scrapeFrom fmt target api (i + 1) fuel
          (found ++ r.1, r.2 + 1)

/-- `scrape_tiktok_comments(video_url, target_username)` from
`src/app.py` lines 44-132.  The only raising path is a failed video-ID
extraction (every in-loop failure is caught and breaks the loop); the
outer handler wraps the message.  `max_iterations = 5`. -/
def scrape_tiktok_comments (fmt : Int → Option String)
    (head : String → Option String) (api : Nat → ApiResult)
    (video_url target_username : String) : Except String (List Comment) :=
  match extract_video_id head video_url with
  | none => Except.error
      "Error scraping comments: Could not extract video ID from URL. Make sure URL is valid."
  | some _video_id => Except.ok (scrapeFrom fmt target_username api 0 5).1

/-- A parsed JSON request body; `none` fields model absent keys. -/
structure ReqBody where
  video_url : Option String
  username : Option String
  deriving DecidableEq, Repr

/-- The `/scrape` response.  `ok` is the 200 body of lines 188-195
(`success: true` plus the listed fields), `badRequest` a 400 body,
`serverError` the 500 body `{success: false, error}`. -/
inductive ScrapeResponse where
  | badRequest (error : String) : ScrapeResponse
  | ok (username video_url : String) (comments : List Comment)
      (count : Nat) (message : String) : ScrapeResponse
  | serverError (error : String) : ScrapeResponse
  deriving DecidableEq, Repr

/-- HTTP status code of a `/scrape` response. -/
def statusOf : ScrapeResponse → Nat
  | ScrapeResponse.badRequest _ => 400
  | ScrapeResponse.ok _ _ _ _ _ => 200
  | ScrapeResponse.serverError _ => 500

/-- The `/scrape` route handler, `src/app.py` lines 157-201.  `body = none`
models a request whose parsed JSON is falsy (missing body or empty
object). -/
def scrape (fmt : Int → Option String) (head : String → Option String)
    (api : Nat → ApiResult) (body : Option ReqBody) : ScrapeResponse :=
  match body with
  | none => ScrapeResponse.badRequest "No JSON data provided"
  | some data =>
    match data.video_url with
    | none => ScrapeResponse.badRequest "Missing video_url in request body"
    | some vurl0 =>
      match data.username with
      | none => ScrapeResponse.badRequest "Missing username in request body"
      | some uname0 =>
        let video_url := pyStrip vurl0
        let username := pyLstripAt (pyStrip uname0)
        if video_url = "" then
          ScrapeResponse.badRequest "video_url cannot be empty"
        else if username = "" then
          ScrapeResponse.badRequest "username cannot be empty"
        else if hasSub "tiktok.com".data video_url.data = false then
          ScrapeResponse.badRequest "Invalid TikTok URL. Must contain tiktok.com"
        else
          match scrape_tiktok_comments fmt head api video_url username with
          | Except.error e => ScrapeResponse.serverError e
          | Except.ok comments =>
            ScrapeResponse.ok username video_url comments comments.length
              ("Found " ++ toString comments.length ++ " comment(s) from @" ++ username)

/-- A timestamp formatter that always fails (conversion always raises). -/
def fmtNone : Int → Option String := fun _ => none

/-- A redirect resolver whose requests always raise. -/
def headNone : String → Option String := fun _ => none

/-- A comment endpoint whose every request raises (e.g. times out). -/
def apiErr : Nat → ApiResult := fun _ => ApiResult.err

/-- A raw record authored by `bob` with text `hi` and no optional fields. -/
def recBob : RawComment := ⟨some ⟨some "bob", none⟩, some "hi", none, none⟩

/-- A comment endpoint returning a single last page holding `recBob`. -/
def apiOne : Nat → ApiResult := fun i =>
  if i = 0 then ApiResult.page 200 [recBob] 0 0 else ApiResult.err

/-- A comment endpoint that always reports a further page of `recBob`. -/
def apiMore : Nat → ApiResult := fun _ => ApiResult.page 200 [recBob] 1 0

/-- The worked-example request body of the specification. -/
def bodyBob : Option ReqBody :=
  some ⟨some "https://www.tiktok.com/@alice/video/1234567890", some "@Bob"⟩

/-! ## Helper lemmas -/

lemma beginsWith_ex (n : List Char) : ∀ h, beginsWith n h = true ↔ ∃ t, h = n ++ t := by
  induction n with
  | nil => intro h; simp [beginsWith]
  | cons a as ih =>
    intro h
    cases h with
    | nil => simp [beginsWith]
    | cons b bs =>
      simp only [beginsWith, Bool.and_eq_true, decide_eq_true_eq, ih, List.cons_append,
        List.cons.injEq]
      constructor
      · rintro ⟨rfl, t, rfl⟩; exact ⟨t, rfl, rfl⟩
      · rintro ⟨t, rfl, rfl⟩; exact ⟨rfl, t, rfl⟩

lemma hasSub_ex (n : List Char) : ∀ h, hasSub n h = true ↔ ∃ p t, h = p ++ (n ++ t) := by
  intro h
  induction h with
  | nil =>
    simp only [hasSub, beginsWith_ex]
    constructor
    · rintro ⟨t, ht⟩; exact ⟨[], t, ht⟩
    · rintro ⟨p, t, hpt⟩
      cases p with
      | nil => exact ⟨t, hpt⟩
      | cons x xs => simp at hpt
  | cons c cs ih =>
    simp only [hasSub, Bool.or_eq_true, beginsWith_ex, ih]
    constructor
    · rintro (⟨t, ht⟩ | ⟨p, t, rfl⟩)
      · exact ⟨[], t, ht⟩
      · exact ⟨c :: p, t, rfl⟩
    · rintro ⟨p, t, hp⟩
      cases p with
      | nil => exact Or.inl ⟨t, by simpa using hp⟩
      | cons x xs =>
        injection hp with h1 h2
        exact Or.inr ⟨xs, t, h2⟩

lemma stripChars_sub (l : List Char) : ∃ p t, l = p ++ (stripChars l ++ t) := by
  have h2 : ((l.dropWhile isPySpace).reverse.takeWhile isPySpace) ++
      ((l.dropWhile isPySpace).reverse.dropWhile isPySpace) =
        (l.dropWhile isPySpace).reverse :=
    List.takeWhile_append_dropWhile isPySpace (l.dropWhile isPySpace).reverse
  have key : stripChars l ++ ((l.dropWhile isPySpace).reverse.takeWhile isPySpace).reverse =
      l.dropWhile isPySpace := by
    unfold stripChars
    rw [← List.reverse_append, h2]
    exact List.reverse_reverse _
  refine ⟨l.takeWhile isPySpace,
    ((l.dropWhile isPySpace).reverse.takeWhile isPySpace).reverse, ?_⟩
  rw [key]
  exact (List.takeWhile_append_dropWhile isPySpace l).symm

lemma hasSub_strip (n l : List Char) (h : hasSub n (stripChars l) = true) :
    hasSub n l = true := by
  obtain ⟨p, t, hpt⟩ := stripChars_sub l
  obtain ⟨p', t', h'⟩ := (hasSub_ex n (stripChars l)).1 h
  refine (hasSub_ex n l).2 ⟨p ++ p', t' ++ (t : List Char), ?_⟩
  rw [hpt, h']
  simp [List.append_assoc]

/-! ## Claim theorems -/

/-- C1: a raw record is kept by the per-record filter if and only if its
author identity (the `unique_id` field, falling back to `nickname` when
absent or empty) case-folded equals the case-folded target username; the
match is exact equality of the folded strings, for any casing of both. -/
theorem author_match_iff (fmt : Int → Option String) (target : String)
    (c : RawComment) :
    (∃ out, processRecord fmt target c = some out) ↔
      pyLower (identityOf c) = pyLower target := by
  unfold processRecord
  by_cases h : pyLower (identityOf c) = pyLower target <;> simp [h]

/-- C9: every emitted comment carries a `likes` value (the field is total
in the output type); it equals the record's `digg_count` when present and
defaults to `0` when the record lacks that field. -/
theorem likes_default_zero (fmt : Int → Option String) (target : String)
    (c : RawComment) (out : Comment)
    (h : processRecord fmt target c = some out) :
    out.likes = c.digg_count.getD 0 ∧ (c.digg_count = none → out.likes = 0) := by
  unfold processRecord at h
  split at h
  · injection h with h
    subst h
    exact ⟨rfl, fun hd => by simp [hd]⟩
  · exact Option.noConfusion h

/-- C9 witness at a concrete record lacking `digg_count`. -/
theorem likes_default_zero_witness :
    (Comment.mk "hi" 0 none).likes = (recBob.digg_count).getD 0 ∧
      (recBob.digg_count = none → (Comment.mk "hi" 0 none).likes = 0) :=
  likes_default_zero fmtNone "bob" recBob (Comment.mk "hi" 0 none) (by decide)

/-- C10: for a kept record, an absent or zero `create_time` yields a
`none` timestamp; a nonzero `create_time` yields the formatted string when
conversion succeeds, and the stringified raw value only when the
conversion fails. -/
theorem timestamp_policy (fmt : Int → Option String) (target : String)
    (c : RawComment) (out : Comment)
    (h : processRecord fmt target c = some out) :
    ((c.create_time = none ∨ c.create_time = some 0) → out.timestamp = none) ∧
    (∀ t s, c.create_time = some t → t ≠ 0 → fmt t = some s →
      out.timestamp = some s) ∧
    (∀ t, c.create_time = some t → t ≠ 0 → fmt t = none →
      out.timestamp = some (toString t)) := by
  unfold processRecord at h
  split at h
  · injection h with h
    subst h
    refine ⟨?_, ?_, ?_⟩
    · rintro (hct | hct) <;> simp [hct]
    · intro t s hct ht hf
      simp [hct, ht, hf]
    · intro t hct ht hf
      simp [hct, ht, hf]
  · exact Option.noConfusion h

/-- C10 witness at a concrete record lacking `create_time`. -/
theorem timestamp_policy_witness :
    (((recBob.create_time = none ∨ recBob.create_time = some 0) →
        (Comment.mk "hi" 0 none).timestamp = none) ∧
      (∀ t s, recBob.create_time = some t → t ≠ 0 → fmtNone t = some s →
        (Comment.mk "hi" 0 none).timestamp = some s) ∧
      (∀ t, recBob.create_time = some t → t ≠ 0 → fmtNone t = none →
        (Comment.mk "hi" 0 none).timestamp = some (toString t))) :=
  timestamp_policy fmtNone "bob" recBob (Comment.mk "hi" 0 none) (by decide)

/-- C7: every successful (200) `/scrape` response reports a `count` equal
to the length of its `comments` sequence. -/
theorem count_matches_length (fmt : Int → Option String)
    (head : String → Option String) (api : Nat → ApiResult)
    (body : Option ReqBody) (u v : String) (cs : List Comment) (n : Nat)
    (m : String) (h : scrape fmt head api body = ScrapeResponse.ok u v cs n m) :
    n = cs.length := by
  cases body with
  | none => exact ScrapeResponse.noConfusion h
  | some data =>
    obtain ⟨vu, un⟩ := data
    cases vu with
    | none => exact ScrapeResponse.noConfusion h
    | some vurl =>
      cases un with
      | none => exact ScrapeResponse.noConfusion h
      | some uname =>
        simp only [scrape] at h
        split at h
        · exact ScrapeResponse.noConfusion h
        · split at h
          · exact ScrapeResponse.noConfusion h
          · split at h
            · exact ScrapeResponse.noConfusion h
            · split at h
              · exact ScrapeResponse.noConfusion h
              · injection h with h1 h2 h3 h4 h5
                subst h3
                exact h4.symm

/-- C7 witness: a concrete successful response with count 0 and no comments. -/
theorem count_matches_length_witness : (0 : Nat) = ([] : List Comment).length :=
  count_matches_length fmtNone headNone apiErr bodyBob "Bob"
    "https://www.tiktok.com/@alice/video/1234567890" [] 0
    "Found 0 comment(s) from @Bob" (by decide)

/-- C8: a request whose `video_url` is empty after trimming, or whose
`username` is empty after trimming and stripping leading `@`, receives a
400 response whose message names the offending field. -/
theorem empty_fields_400 (fmt : Int → Option String)
    (head : String → Option String) (api : Nat → ApiResult)
    (vurl uname : String) :
    (pyStrip vurl = "" →
      scrape fmt head api (some ⟨some vurl, some uname⟩) =
        ScrapeResponse.badRequest "video_url cannot be empty") ∧
    (pyStrip vurl ≠ "" → pyLstripAt (pyStrip uname) = "" →
      scrape fmt head api (some ⟨some vurl, some uname⟩) =
        ScrapeResponse.badRequest "username cannot be empty") := by
  constructor
  · intro h
    simp [scrape, h]
  · intro h1 h2
    simp [scrape, h1, h2]

/-- C8 witness at a whitespace-only URL and an all-`@` username. -/
theorem empty_fields_400_witness :
    scrape fmtNone headNone apiErr (some ⟨some "   ", some "bob"⟩) =
      ScrapeResponse.badRequest "video_url cannot be empty" ∧
    scrape fmtNone headNone apiErr (some ⟨some "https://tiktok.com/v", some "@@"⟩) =
      ScrapeResponse.badRequest "username cannot be empty" :=
  ⟨(empty_fields_400 fmtNone headNone apiErr "   " "bob").1 (by decide),
   (empty_fields_400 fmtNone headNone apiErr "https://tiktok.com/v" "@@").2
     (by decide) (by decide)⟩

/-! ## Pagination loop lemmas -/

lemma scrapeFrom_snd_le (fmt : Int → Option String) (target : String)
    (api : Nat → ApiResult) : ∀ fuel i, (scrapeFrom fmt target api i fuel).2 ≤ fuel := by
  intro fuel
  induction fuel with
  | zero => intro i; simp [scrapeFrom]
  | succ f ih =>
    intro i
    cases hapi : api i with
    | err => simp [scrapeFrom, hapi]
    | page st cs hm cur =>
      simp only [scrapeFrom, hapi]
      split
      · simp
      · split
        · simp
        · split
          · simp
          · have := ih (i + 1)
            simpa using Nat.succ_le_succ this

lemma scrapeFrom_snd_full (fmt : Int → Option String) (target : String)
    (api : Nat → ApiResult) :
    ∀ fuel i, (∀ j, j < fuel →
        ∃ cs hm cur, api (i + j) = ApiResult.page 200 cs hm cur ∧ cs ≠ [] ∧ hm ≠ 0) →
      (scrapeFrom fmt target api i fuel).2 = fuel := by
  intro fuel
  induction fuel with
  | zero => intro i _; simp [scrapeFrom]
  | succ f ih =>
    intro i h
    obtain ⟨cs, hm, cur, hapi, hcs, hhm⟩ := h 0 (Nat.succ_pos f)
    rw [Nat.add_zero] at hapi
    have hrec := ih (i + 1) (fun j hj => by
      obtain ⟨cs', hm', cur', ha, h1, h2⟩ := h (j + 1) (Nat.succ_lt_succ hj)
      have hidx : i + (j + 1) = i + 1 + j := by omega
      rw [hidx] at ha
      exact ⟨cs', hm', cur', ha, h1, h2⟩)
    simp [scrapeFrom, hapi, hcs, hhm, hrec]

/-- C4: the pagination loop stops immediately on a raised request, a
non-200 status, an empty comment list, or a falsy `has_more`, returning
what it has; on a full page with more to come it adds the page's matches
and recurses; when every response is a full page with `has_more` set it
makes exactly 5 requests; and it never exceeds the 5-iteration cap. -/
theorem pagination_behavior :
    (∀ fmt target api i fuel, api i = ApiResult.err →
      scrapeFrom fmt target api i (fuel + 1) = ([], 1)) ∧
    (∀ fmt target api i fuel st cs hm cur, api i = ApiResult.page st cs hm cur →
      st ≠ 200 → scrapeFrom fmt target api i (fuel + 1) = ([], 1)) ∧
    (∀ fmt target api i fuel hm cur, api i = ApiResult.page 200 [] hm cur →
      scrapeFrom fmt target api i (fuel + 1) = ([], 1)) ∧
    (∀ fmt target api i fuel cs cur, api i = ApiResult.page 200 cs 0 cur →
      cs ≠ [] → scrapeFrom fmt target api i (fuel + 1) =
        (cs.filterMap (processRecord fmt target), 1)) ∧
    (∀ fmt target api i fuel cs hm cur, api i = ApiResult.page 200 cs hm cur →
      cs ≠ [] → hm ≠ 0 → scrapeFrom fmt target api i (fuel + 1) =
        (cs.filterMap (processRecord fmt target) ++ (scrapeFrom fmt target api (i + 1) fuel).1,
          (scrapeFrom fmt target api (i + 1) fuel).2 + 1)) ∧
    (∀ fmt target api,
      (∀ i, i < 5 → ∃ cs hm cur, api i = ApiResult.page 200 cs hm cur ∧ cs ≠ [] ∧ hm ≠ 0) →
      (scrapeFrom fmt target api 0 5).2 = 5) ∧
    (∀ fmt target api i, (scrapeFrom fmt target api i 5).2 ≤ 5) := by
  refine ⟨?_, ?_, ?_, ?_, ?_, ?_, ?_⟩
  · intro fmt target api i fuel h
    simp [scrapeFrom, h]
  · intro fmt target api i fuel st cs hm cur h hst
    simp [scrapeFrom, h, hst]
  · intro fmt target api i fuel hm cur h
    simp [scrapeFrom, h]
  · intro fmt target api i fuel cs cur h hcs
    simp [scrapeFrom, h, hcs]
  · intro fmt target api i fuel cs hm cur h hcs hhm
    simp [scrapeFrom, h, hcs, hhm]
  · intro fmt target api h
    exact scrapeFrom_snd_full fmt target api 5 0 (fun j hj => by simpa using h j hj)
  · intro fmt target api i
    exact scrapeFrom_snd_le fmt target api 5 i

/-- C4 witness: an always-full endpoint is polled exactly 5 times, and an
always-raising endpoint stops after its first request with nothing. -/
theorem pagination_behavior_witness :
    (scrapeFrom fmtNone "bob" apiMore 0 5).2 = 5 ∧
      scrapeFrom fmtNone "bob" apiErr 0 5 = ([], 1) :=
  ⟨pagination_behavior.2.2.2.2.2.1 fmtNone "bob" apiMore
      (fun _ _ => ⟨[recBob], 1, 0, rfl, by decide, by decide⟩),
    pagination_behavior.1 fmtNone "bob" apiErr 0 4 rfl⟩

/-- C5: a request whose `video_url` lacks the substring `tiktok.com`
receives a 400 response, and the comment-source adapter is never
consulted: the response does not depend on any of the network or
formatting oracles. -/
theorem invalid_domain_400 (fmt fmt2 : Int → Option String)
    (head head2 : String → Option String) (api api2 : Nat → ApiResult)
    (d : ReqBody) (vurl : String) (hv : d.video_url = some vurl)
    (hsub : hasSub "tiktok.com".data vurl.data = false) :
    statusOf (scrape fmt head api (some d)) = 400 ∧
      scrape fmt head api (some d) = scrape fmt2 head2 api2 (some d) := by
  obtain ⟨vu, un⟩ := d
  have hv' : vu = some vurl := hv
  subst hv'
  have hstr : hasSub "tiktok.com".data (pyStrip vurl).data = false := by
    by_contra hc
    rw [Bool.not_eq_false] at hc
    have := hasSub_strip "tiktok.com".data vurl.data hc
    rw [hsub] at this
    exact Bool.noConfusion this
  cases un with
  | none => exact ⟨rfl, rfl⟩
  | some u0 =>
    by_cases h1 : pyStrip vurl = ""
    · constructor <;> simp [scrape, statusOf, h1]
    · by_cases h2 : pyLstripAt (pyStrip u0) = ""
      · constructor <;> simp [scrape, statusOf, h1, h2]
      · constructor <;> simp [scrape, statusOf, h1, h2, hstr]

/-- C5 witness at a URL on a foreign domain. -/
theorem invalid_domain_400_witness :
    statusOf (scrape fmtNone headNone apiErr
        (some ⟨some "https://example.com/x", some "bob"⟩)) = 400 ∧
      scrape fmtNone headNone apiErr (some ⟨some "https://example.com/x", some "bob"⟩) =
        scrape fmtNone headNone apiOne (some ⟨some "https://example.com/x", some "bob"⟩) :=
  invalid_domain_400 fmtNone fmtNone headNone headNone apiErr apiOne
    ⟨some "https://example.com/x", some "bob"⟩ "https://example.com/x" rfl (by decide)

/-- C2 counterexample: at the specification's worked example the service
answers with `username` equal to the @-stripped request username `Bob`,
which is not the claimed `bob`. -/
theorem example_username_counterexample :
    scrape fmtNone headNone apiOne bodyBob =
      ScrapeResponse.ok "Bob" "https://www.tiktok.com/@alice/video/1234567890"
        [⟨"hi", 0, none⟩] 1 "Found 1 comment(s) from @Bob" ∧
      ("Bob" : String) ≠ "bob" := by
  exact ⟨by decide, by decide⟩

/-- C2 amended: for the worked-example input with one remote record of
identity `bob` and text `hi`, the response is success with count 1, one
comment of text `hi`, and `username` equal to `Bob`, the request's
username with the leading `@` stripped and its casing preserved. -/
theorem example_request_response :
    scrape fmtNone headNone apiOne bodyBob =
      ScrapeResponse.ok "Bob" "https://www.tiktok.com/@alice/video/1234567890"
        [⟨"hi", 0, none⟩] 1 "Found 1 comment(s) from @Bob" := by
  decide

/-- C3 counterexample: when every remote fetch raises (e.g. times out),
the worked-example request is answered 200 with success and the empty
accumulation — not 500. -/
theorem timeout_not_500 :
    scrape fmtNone headNone apiErr bodyBob =
      ScrapeResponse.ok "Bob" "https://www.tiktok.com/@alice/video/1234567890" [] 0
        "Found 0 comment(s) from @Bob" ∧
      statusOf (scrape fmtNone headNone apiErr bodyBob) = 200 ∧ (200 : Nat) ≠ 500 := by
  exact ⟨by decide, by decide, by decide⟩

/-- C3 amended: a transport exception raised by the first comment fetch is
caught inside the pagination loop, which breaks; the request that passed
validation and video-ID extraction is answered 200 with success and the
comments accumulated before the failure (none), and the process does not
crash with a 500. -/
theorem timeout_partial_results (fmt : Int → Option String)
    (head : String → Option String) (api : Nat → ApiResult)
    (vurl uname vid : String)
    (hv : pyStrip vurl ≠ "") (hu : pyLstripAt (pyStrip uname) ≠ "")
    (hd : hasSub "tiktok.com".data (pyStrip vurl).data = true)
    (hid : extract_video_id head (pyStrip vurl) = some vid)
    (herr : api 0 = ApiResult.err) :
    scrape fmt head api (some ⟨some vurl, some uname⟩) =
      ScrapeResponse.ok (pyLstripAt (pyStrip uname)) (pyStrip vurl) [] 0
        ("Found 0 comment(s) from @" ++ pyLstripAt (pyStrip uname)) := by
  have hloop : scrapeFrom fmt (pyLstripAt (pyStrip uname)) api 0 5 = ([], 1) := by
    simp [scrapeFrom, herr]
  have hmsg : ("Found " ++ toString (0 : Nat) ++ " comment(s) from @" : String) =
      "Found 0 comment(s) from @" := rfl
  simp [scrape, scrape_tiktok_comments, hv, hu, hd, hid, hloop, hmsg]

/-- C3 amended witness at the worked example with an always-raising fetch. -/
theorem timeout_partial_results_witness :
    scrape fmtNone headNone apiErr bodyBob =
      ScrapeResponse.ok (pyLstripAt (pyStrip "@Bob"))
        (pyStrip "https://www.tiktok.com/@alice/video/1234567890") [] 0
        ("Found 0 comment(s) from @" ++ pyLstripAt (pyStrip "@Bob")) :=
  timeout_partial_results fmtNone headNone apiErr
    "https://www.tiktok.com/@alice/video/1234567890" "@Bob" "1234567890"
    (by decide) (by decide) (by decide) (by decide) rfl

/-! ## Video-ID pattern lemmas -/

lemma takeDigits_all (d b : List Char) (hd : ∀ c ∈ d, c.isDigit = true)
    (hb : ∀ c, b.head? = some c → c.isDigit = false) :
    takeDigits (d ++ b) = d := by
  induction d with
  | nil =>
    cases b with
    | nil => rfl
    | cons c bs =>
      have hc : c.isDigit = false := hb c rfl
      simp [takeDigits, hc]
  | cons c ds ih =>
    have hc : c.isDigit = true := hd c (List.mem_cons_self c ds)
    have ihh := ih (fun x hx => hd x (List.mem_cons_of_mem c hx))
    simp [takeDigits, hc, ihh]

lemma searchPat1_skip (rest : List Char) :
    ∀ a : List Char, (∀ i, i < a.length → pat1Here ((a ++ rest).drop i) = none) →
      searchPat1 (a ++ rest) = searchPat1 rest := by
  intro a
  induction a with
  | nil => intro _; rfl
  | cons c as ih =>
    intro h
    have h0 : pat1Here (c :: (as ++ rest)) = none := by
      have := h 0 (by simp)
      simpa using this
    have hstep : searchPat1 (c :: (as ++ rest)) = searchPat1 (as ++ rest) := by
      conv_lhs => unfold searchPat1
      rw [h0]
    rw [List.cons_append, hstep]
    exact ih (fun i hi => by
      have := h (i + 1) (by simpa using Nat.succ_lt_succ hi)
      simpa using this)

lemma searchPat1_hit (d b : List Char) (hne : d ≠ [])
    (hd : ∀ c ∈ d, c.isDigit = true)
    (hb : ∀ c, b.head? = some c → c.isDigit = false) :
    searchPat1 ('/' :: 'v' :: 'i' :: 'd' :: 'e' :: 'o' :: '/' :: (d ++ b)) = some d := by
  have ht : takeDigits (d ++ b) = d := takeDigits_all d b hd hb
  have h0 : pat1Here ('/' :: 'v' :: 'i' :: 'd' :: 'e' :: 'o' :: '/' :: (d ++ b)) = some d := by
    cases d with
    | nil => exact absurd rfl hne
    | cons x xs =>
      rw [List.cons_append] at ht
      simp [pat1Here, ht]
  unfold searchPat1
  rw [h0]

/-- C6: for a URL consisting of any pattern-free portion `a` followed by
`/video/` and a nonempty maximal digit run `d`, the resolver returns
exactly `d` — for every redirect oracle, so no network round-trip is
involved.  The side conditions say that the shown occurrence is the first
match of the leading pattern and that `d` captures greedily. -/
theorem video_id_resolution (head : String → Option String) (a d b : List Char)
    (hne : d ≠ []) (hd : ∀ c ∈ d, c.isDigit = true)
    (hb : ∀ c, b.head? = some c → c.isDigit = false)
    (ha : ∀ i, i < a.length →
      pat1Here ((a ++ ('/' :: 'v' :: 'i' :: 'd' :: 'e' :: 'o' :: '/' :: (d ++ b))).drop i)
        = none) :
    extract_video_id head
        (String.mk (a ++ ('/' :: 'v' :: 'i' :: 'd' :: 'e' :: 'o' :: '/' :: (d ++ b)))) =
      some (String.mk d) := by
  have hdata :
      (String.mk (a ++ ('/' :: 'v' :: 'i' :: 'd' :: 'e' :: 'o' :: '/' :: (d ++ b)))).data =
        a ++ ('/' :: 'v' :: 'i' :: 'd' :: 'e' :: 'o' :: '/' :: (d ++ b)) := rfl
  have h1 : searchPat1 (a ++ ('/' :: 'v' :: 'i' :: 'd' :: 'e' :: 'o' :: '/' :: (d ++ b)))
      = some d := by
    rw [searchPat1_skip _ a ha]
    exact searchPat1_hit d b hne hd hb
  simp [extract_video_id, hdata, h1]

/-- C6 witness at the worked-example URL. -/
theorem video_id_resolution_witness :
    extract_video_id headNone
        (String.mk ("https://www.tiktok.com/@alice".data ++
          ('/' :: 'v' :: 'i' :: 'd' :: 'e' :: 'o' :: '/' :: ("1234567890".data ++ [])))) =
      some (String.mk "1234567890".data) :=
  video_id_resolution headNone "https://www.tiktok.com/@alice".data "1234567890".data []
    (by decide) (by decide) (fun c h => by simp at h) (by decide)

/-- C1 witness: the record authored by `bob` matches the target `Bob`. -/
theorem author_match_iff_witness :
    pyLower (identityOf recBob) = pyLower "Bob" :=
  (author_match_iff fmtNone "Bob" recBob).mp ⟨⟨"hi", 0, none⟩, by decide⟩
